import Mathlib

/-
Verification of the MusicTheory VST3 chord-aggregation pipeline
(src/vst3-plugin/src/plugin/MusicTheoryPlugin.cpp and
src/vst3-plugin/src/network/HttpClient.cpp), shallowly embedded in Lean.
Host doubles are modelled as rationals, int64 sample positions as ℤ,
MIDI pitches as ℕ. C-style casts from double to an integer type truncate
toward zero, modelled by i64trunc.
-/

namespace MusicTheory

/-- Truncation toward zero, as a C cast from `double` to an integer type. -/
def i64trunc (q : ℚ) : ℤ := if 0 ≤ q then ⌊q⌋ else -⌊-q⌋

/-- The pitch-class name table `names[]` in `MusicTheoryPlugin::flushChord`:
the twelve semitone names from C upward, in sharp spelling. -/
def pitchClassNames : List String :=
  ["C", "C#", "D", "D#", "E", "F"] ++ ["F#", "G", "G#", "A", "A#", "B"]

/-- Note-name conversion in `flushChord`:
`names[midi % 12] + std::to_string((midi / 12) - 1)` (pitch is nonnegative). -/
def noteName (midi : ℕ) : String :=
  pitchClassNames.getD (midi % 12) "" ++ toString (((midi / 12 : ℕ) : ℤ) - 1)

/-- `ChordTask` from HttpClient.h. -/
structure ChordTask where
  notes : List String
  velocity : ℤ
  durationMs : ℤ
deriving DecidableEq

/-- An observable dispatch performed by `flushChord`: either a single chord
handed to `HttpClient::enqueueChord`, or a progression posted through
`HttpClient::postProgression(buffer, (int)tempoBPM_, lastVelocity_)`. -/
inductive Dispatch where
  | enqueue (task : ChordTask)
  | progression (chords : List ChordTask) (bpm : ℤ) (velocity : ℤ)
deriving DecidableEq

/-- The aggregation state of `MusicTheoryPlugin` (member fields with their
in-class initializers from MusicTheoryPlugin.h). -/
structure PluginState where
  sampleRate : ℚ := 44100
  tempoBPM : ℚ := 120
  lastBarSamplePos : ℤ := 0
  timeSigNum : ℤ := 4
  timeSigDen : ℤ := 4
  currentChordNotes : List ℕ := []
  lastVelocity : ℤ := 90
  noteOnSamplePos : List ℤ := []
  silenceFlushMs : ℤ := 250
  lastActiveNoteSample : ℤ := 0
  sendBatchProgression : Bool := false
  progressionBuffer : List ChordTask := []
deriving DecidableEq

/-- A freshly constructed plugin (all fields at their initializers). -/
def initState : PluginState := {}

/-- Value of `*std::min_element(v.begin(), v.end())` for a nonempty vector
(0 for the empty vector, which the code never queries). -/
def listMin : List ℤ → ℤ
  | [] => 0
  | x :: xs => xs.foldl min x

/-- The `ChordTask` built by `flushChord` from the current state:
note names, `lastVelocity_`, and the duration
`(int)std::clamp(span * 1000.0 / sampleRate_, 50.0, 4000.0)` where
`span = max(0, lastBarSamplePos_ - min(noteOnSamplePos_))`, or the
fallback 1000 when no onset records exist.  The clamped value is at
least 50, so the `(int)` cast is a floor. -/
def buildTask (st : PluginState) : ChordTask where
  notes := st.currentChordNotes.map noteName
  velocity := st.lastVelocity
  durationMs :=
    if st.noteOnSamplePos = [] then 1000
    else
      let earliest := listMin st.noteOnSamplePos
      let span : ℤ := max 0 (st.lastBarSamplePos - earliest)
      ⌊min 4000 (max 50 ((span : ℚ) * 1000 / st.sampleRate))⌋

/-- `MusicTheoryPlugin::flushChord`: no-op when `currentChordNotes_` is
empty; otherwise builds the chord task, either buffers it (dispatching the
whole buffer once it reaches 4 entries) or enqueues it directly, and clears
the note and onset lists. -/
def flushChord (st : PluginState) : PluginState × List Dispatch :=
  if st.currentChordNotes = [] then (st, [])
  else
    let task := buildTask st
    if st.sendBatchProgression then
      let buf := st.progressionBuffer ++ [task]
      if 4 ≤ buf.length then
        ({ st with currentChordNotes := [], noteOnSamplePos := [],
                   progressionBuffer := [] },
         [Dispatch.progression buf (i64trunc st.tempoBPM) st.lastVelocity])
      else
        ({ st with currentChordNotes := [], noteOnSamplePos := [],
                   progressionBuffer := buf }, [])
    else
      ({ st with currentChordNotes := [], noteOnSamplePos := [] },
       [Dispatch.enqueue task])

/-- A MIDI event as consumed by `handleMidiEvents` (pitch and velocity of
the VST3 event; the sample position is derived from the process context,
common to all events of one cycle, and passed separately). -/
inductive MidiEvent where
  | noteOn (pitch : ℕ) (velocity : ℤ)
  | noteOff (pitch : ℕ)
  | dataEvent
deriving DecidableEq

/-- One iteration of the event loop in `MusicTheoryPlugin::handleMidiEvents`.
Note-on appends the pitch and its onset position and overwrites
`lastVelocity_` and `lastActiveNoteSample_`.  Note-off erases the first
occurrence of the pitch from `currentChordNotes_`, erases the FRONT of
`noteOnSamplePos_` when nonempty, and records the silence-start marker
when no active notes remain. -/
def handleEvent (pos : ℤ) (st : PluginState) : MidiEvent → PluginState
  | .noteOn pitch vel =>
      { st with currentChordNotes := st.currentChordNotes ++ [pitch]
                lastVelocity := vel
                noteOnSamplePos := st.noteOnSamplePos ++ [pos]
                lastActiveNoteSample := pos }
  | .noteOff pitch =>
      let notes := st.currentChordNotes.erase pitch
      { st with currentChordNotes := notes
                noteOnSamplePos :=
                  if st.noteOnSamplePos = [] then st.noteOnSamplePos
                  else st.noteOnSamplePos.tail
                lastActiveNoteSample :=
                  if notes = [] then pos else st.lastActiveNoteSample }
  | .dataEvent => st

/-- Host transport fields of one processing cycle; `none` models a field
whose validity flag is unset (the plugin then keeps its last value). -/
structure TransportCtx where
  tempo : Option ℚ := none
  timeSig : Option (ℤ × ℤ) := none
  sampleRate : Option ℚ := none
  projectTimeMusic : Option ℚ := none

/-- The transport updates at the top of `MusicTheoryPlugin::process`. -/
def applyTransport (st : PluginState) (ctx : TransportCtx) : PluginState :=
  let s1 := match ctx.tempo with
    | some t => { st with tempoBPM := t }
    | none => st
  let s2 := match ctx.timeSig with
    | some nd => { s1 with timeSigNum := nd.1, timeSigDen := nd.2 }
    | none => s1
  match ctx.sampleRate with
  | some sr => { s2 with sampleRate := sr }
  | none => s2

/-- The approximate sample position
`(int64)(projectTimeMusic * (sampleRate_ * (60.0 / tempoBPM_)))` used both
for event onsets and as the cycle's current sample position; 0 when the
musical position is not valid. -/
def eventPos (st : PluginState) (ctx : TransportCtx) : ℤ :=
  match ctx.projectTimeMusic with
  | some ptm => i64trunc (ptm * (st.sampleRate * (60 / st.tempoBPM)))
  | none => 0

/-- Bar length in samples:
`(60 / tempoBPM_) * (timeSigNum_ * (4 / timeSigDen_)) * sampleRate_`. -/
def samplesPerBar (st : PluginState) : ℚ :=
  (60 / st.tempoBPM) * ((st.timeSigNum : ℚ) * (4 / (st.timeSigDen : ℚ))) * st.sampleRate

/-- `MusicTheoryPlugin::isBarBoundary`:
`currentSamplePos - lastBarSamplePos_ >= samplesPerBar` (int64 difference
compared against a double). -/
def isBarBoundary (lastBar currentSamplePos : ℤ) (spb : ℚ) : Prop :=
  spb ≤ ((currentSamplePos - lastBar : ℤ) : ℚ)

instance (lastBar currentSamplePos : ℤ) (spb : ℚ) :
    Decidable (isBarBoundary lastBar currentSamplePos spb) :=
  inferInstanceAs (Decidable (spb ≤ ((currentSamplePos - lastBar : ℤ) : ℚ)))

/-- Silence threshold in samples:
`(int64)((double)silenceFlushMs_ * sampleRate_ / 1000.0)`. -/
def silenceThresholdSamples (st : PluginState) : ℤ :=
  i64trunc ((st.silenceFlushMs : ℚ) * st.sampleRate / 1000)

/-- The state after the transport updates and `handleMidiEvents` of one
cycle, before any flush decision. -/
def midState (st : PluginState) (ctx : TransportCtx) (events : List MidiEvent) :
    PluginState :=
  List.foldl (handleEvent (eventPos (applyTransport st ctx) ctx))
    (applyTransport st ctx) events

/-- Which flush branch of `process` fired in a cycle. -/
inductive FlushKind where
  | silence
  | bar
deriving DecidableEq

/-- Observable result of one `process` cycle: the new plugin state, the
dispatches performed, and which flush branches ran. -/
structure CycleResult where
  state : PluginState
  dispatches : List Dispatch
  flushes : List FlushKind
deriving DecidableEq

/-- Guard of the silence-based flush in `process`:
`currentChordNotes_.empty() && lastActiveNoteSample_ > 0` together with the
threshold test `currentSamples - lastActiveNoteSample_ >=
silenceSamplesThreshold`. -/
def silenceCond (st2 : PluginState) (cur : ℤ) : Prop :=
  st2.currentChordNotes = [] ∧ 0 < st2.lastActiveNoteSample ∧
    silenceThresholdSamples st2 ≤ cur - st2.lastActiveNoteSample

instance (st2 : PluginState) (cur : ℤ) : Decidable (silenceCond st2 cur) :=
  inferInstanceAs (Decidable (_ ∧ _ ∧ _))

/-- Body of the silence-based flush: set `lastBarSamplePos_` to the current
sample position, call `flushChord`, then reset the marker to 0. -/
def silenceStep (st2 : PluginState) (cur : ℤ) : CycleResult :=
  ⟨{ (flushChord { st2 with lastBarSamplePos := cur }).1 with lastActiveNoteSample := 0 },
   (flushChord { st2 with lastBarSamplePos := cur }).2, [FlushKind.silence]⟩

/-- Body of the bar-boundary flush: set `lastBarSamplePos_` to the current
sample position and call `flushChord`. -/
def barStep (st3 : PluginState) (cur : ℤ) : CycleResult :=
  ⟨(flushChord { st3 with lastBarSamplePos := cur }).1,
   (flushChord { st3 with lastBarSamplePos := cur }).2, [FlushKind.bar]⟩

/-- The flush-decision part of `process` (after `handleMidiEvents`): the
silence check runs first on the post-event state, and the bar-boundary
check then runs on whatever state the silence step left behind (`spb` is
computed once, before either flush). -/
def flushDriver (st2 : PluginState) (cur : ℤ) : CycleResult :=
  if silenceCond st2 cur then
    if isBarBoundary (silenceStep st2 cur).state.lastBarSamplePos cur (samplesPerBar st2) then
      ⟨(barStep (silenceStep st2 cur).state cur).state,
       (silenceStep st2 cur).dispatches ++ (barStep (silenceStep st2 cur).state cur).dispatches,
       [FlushKind.silence, FlushKind.bar]⟩
    else silenceStep st2 cur
  else
    if isBarBoundary st2.lastBarSamplePos cur (samplesPerBar st2) then barStep st2 cur
    else ⟨st2, [], []⟩

/-- `MusicTheoryPlugin::process` for one cycle: transport updates, MIDI
event handling, then (only when the musical position is valid) the
silence-based flush followed by the bar-boundary flush. -/
def processCycle (st : PluginState) (ctx : TransportCtx) (events : List MidiEvent) :
    CycleResult :=
  match ctx.projectTimeMusic with
  | none => ⟨midState st ctx events, [], []⟩
  | some _ =>
      flushDriver (midState st ctx events) (eventPos (applyTransport st ctx) ctx)

/-- The duration formula exactly as the specification words it:
`clamp((currentSample - earliestOnset) * 1000 / sampleRate, 50, 4000)`,
including the final conversion to an integer (spec-side definition, to be
compared with the one computed by `buildTask`). -/
def specClampDuration (currentSample earliest : ℤ) (sr : ℚ) : ℤ :=
  ⌊min 4000 (max 50 (((currentSample - earliest : ℤ) : ℚ) * 1000 / sr))⌋

/-- The onset records currently pending for pitch `p`, reading the two
parallel vectors as pitch/onset pairs the way the specification describes
the Active Note Set (spec-side definition, for comparison with what the
code removes). -/
def pendingOnsetsOf (p : ℕ) (st : PluginState) : List ℤ :=
  ((st.currentChordNotes.zip st.noteOnSamplePos).filter fun q => q.1 == p).map Prod.snd

/-- Outcome of one libcurl interaction inside `HttpClient::postChord` or
`HttpClient::postProgression`: `curl_easy_init` returning null, a
`curl_easy_perform` result other than `CURLE_OK` (with its
`curl_easy_strerror` text), or a completed request with an HTTP response
code. -/
inductive CurlOutcome where
  | initFail
  | transportFail (err : String)
  | response (code : ℤ)
deriving DecidableEq

/-- The diagnostic fields `lastError_` and `lastStatus_` of `HttpClient`. -/
structure ClientState where
  lastError : String := ""
  lastStatus : String := ""
deriving DecidableEq

/-- `HttpClient::postChord`: returns false with `lastError_` set on an
initialization or transport failure; on a completed request records
`"HTTP " + std::to_string(code)` in `lastStatus_` and returns
`code >= 200 && code < 300`.  The function always returns (no exception
reaches the caller). -/
def postChord (st : ClientState) (task : ChordTask) (outcome : CurlOutcome) :
    Bool × ClientState :=
  match task, outcome with
  | _, .initFail => (false, { st with lastError := "curl init failed" })
  | _, .transportFail e => (false, { st with lastError := e })
  | _, .response code =>
      (decide (200 ≤ code ∧ code < 300),
       { st with lastStatus := "HTTP " ++ toString code })

/-- `HttpClient::postProgression`: identical failure/success handling to
`postChord` (the payload and the 2000 ms timeout differ, not the result
logic). -/
def postProgression (st : ClientState) (chords : List ChordTask)
    (bpm velocity channel : ℤ) (outcome : CurlOutcome) : Bool × ClientState :=
  match chords, bpm, velocity, channel, outcome with
  | _, _, _, _, .initFail => (false, { st with lastError := "curl init failed" })
  | _, _, _, _, .transportFail e => (false, { st with lastError := e })
  | _, _, _, _, .response code =>
      (decide (200 ≤ code ∧ code < 300),
       { st with lastStatus := "HTTP " ++ toString code })

/-- State after note-on(60) at sample 0 and note-on(64) at sample 100:
two held pitches with their onset records. -/
def c1State : PluginState :=
  handleEvent 100 (handleEvent 0 initState (.noteOn 60 100)) (.noteOn 64 100)

/-- State after two note-on(60) events (a duplicate note-on for a pitch
that is already held). -/
def c2State : PluginState :=
  handleEvent 10 (handleEvent 0 initState (.noteOn 60 100)) (.noteOn 60 100)

/-- State after note-on(60) at sample 0 followed by note-off(64) (a
note-off for a pitch that is not held). -/
def c10State : PluginState :=
  handleEvent 10 (handleEvent 0 initState (.noteOn 60 100)) (.noteOff 64)

/-- Transport context of the end-to-end scenario (sample rate 44100, tempo
120, 4/4) at musical position 0 (sample 0). -/
def e2eCtx1 : TransportCtx :=
  { tempo := some 120, timeSig := some (4, 4), sampleRate := some 44100,
    projectTimeMusic := some 0 }

/-- Same transport at the musical position whose sample estimate is 100. -/
def e2eCtx2 : TransportCtx := { e2eCtx1 with projectTimeMusic := some (100 / 22050) }

/-- Same transport at the musical position whose sample estimate is 5000. -/
def e2eCtx3 : TransportCtx := { e2eCtx1 with projectTimeMusic := some (5000 / 22050) }

/-- Expected state after the scenario's first cycle (note-on(60, vel 100)
at sample 0). -/
def e2eS1 : PluginState :=
  { initState with currentChordNotes := [60], lastVelocity := 100,
                   noteOnSamplePos := [0] }

/-- Expected state after the scenario's second cycle (note-on(64) at
sample 100). -/
def e2eS2 : PluginState :=
  { initState with currentChordNotes := [60, 64], lastVelocity := 100,
                   noteOnSamplePos := [0, 100], lastActiveNoteSample := 100 }

/-- Expected state after the scenario's third cycle (both note-offs at
sample 5000): no held notes, no onset records, silence marker at 5000. -/
def e2eS3 : PluginState :=
  { initState with currentChordNotes := [], lastVelocity := 100,
                   noteOnSamplePos := [], lastActiveNoteSample := 5000 }

theorem flushChord_lastBarSamplePos (st : PluginState) :
    (flushChord st).1.lastBarSamplePos = st.lastBarSamplePos := by
  simp only [flushChord]
  split
  · rfl
  · split
    · split <;> rfl
    · rfl

/-- Scenario cycle 1: note-on(60, vel 100) at musical position 0. -/
theorem e2e_cycle1 : processCycle initState e2eCtx1 [.noteOn 60 100] = ⟨e2eS1, [], []⟩ := by
  simp only [processCycle, flushDriver, silenceCond, silenceStep, barStep, midState,
    applyTransport, eventPos, handleEvent, i64trunc, samplesPerBar,
    silenceThresholdSamples, isBarBoundary, initState, e2eCtx1, e2eS1, List.foldl]
  norm_num [flushChord, buildTask, listMin]

/-- Scenario cycle 2: note-on(64, vel 100) at the position whose sample
estimate is 100. -/
theorem e2e_cycle2 : processCycle e2eS1 e2eCtx2 [.noteOn 64 100] = ⟨e2eS2, [], []⟩ := by
  simp only [processCycle, flushDriver, silenceCond, silenceStep, barStep, midState,
    applyTransport, eventPos, handleEvent, i64trunc, samplesPerBar,
    silenceThresholdSamples, isBarBoundary, initState, e2eCtx1, e2eCtx2, e2eS1, e2eS2,
    List.foldl]
  norm_num [flushChord, buildTask, listMin]

/-- Scenario cycle 3: both note-offs at the position whose sample estimate
is 5000; no flush fires in that cycle. -/
theorem e2e_cycle3 :
    processCycle e2eS2 e2eCtx3 [.noteOff 60, .noteOff 64] = ⟨e2eS3, [], []⟩ := by
  simp only [processCycle, flushDriver, silenceCond, silenceStep, barStep, midState,
    applyTransport, eventPos, handleEvent, i64trunc, samplesPerBar,
    silenceThresholdSamples, isBarBoundary, initState, e2eCtx1, e2eCtx3, e2eS2, e2eS3,
    List.foldl, List.erase]
  norm_num
  decide

/-- C9: flushing when the Active Note Set is empty is a no-op: no chord
record is constructed, nothing is dispatched, and the whole plugin state
(including onset records and the progression buffer) is unchanged. -/
theorem c9_flush_empty_noop (st : PluginState) (h : st.currentChordNotes = []) :
    flushChord st = (st, []) := by
  unfold flushChord
  simp [h]

/-- Witness for C9 at the freshly constructed plugin state. -/
theorem c9_flush_empty_noop_witness : flushChord initState = (initState, []) :=
  c9_flush_empty_noop initState rfl

/-- C7: the note names produced at flush are
`pitchClassNames[pitch % 12] + ((pitch / 12) - 1)` for every held pitch,
and in particular 60 ↦ "C4", 61 ↦ "C#4", 72 ↦ "C5", 0 ↦ "C-1". -/
theorem c7_note_names (st : PluginState) :
    (buildTask st).notes = st.currentChordNotes.map noteName ∧
    (∀ p : ℕ, noteName p =
      pitchClassNames.getD (p % 12) "" ++ toString (((p / 12 : ℕ) : ℤ) - 1)) ∧
    noteName 60 = "C4" ∧ noteName 61 = "C#4" ∧
    noteName 72 = "C5" ∧ noteName 0 = "C-1" :=
  ⟨rfl, fun _ => rfl, by decide, by decide, by decide, by decide⟩

/-- C1 counterexample: with pitch 60 held since sample 0 and pitch 64 held
since sample 100, a note-off for pitch 64 removes the onset record 0 (the
front of the list, which belongs to pitch 60), not pitch 64's earliest
pending onset record 100, which stays behind. -/
theorem c1_counterexample :
    c1State.currentChordNotes = [60, 64] ∧ c1State.noteOnSamplePos = [0, 100] ∧
    pendingOnsetsOf 64 c1State = [100] ∧
    (handleEvent 5000 c1State (.noteOff 64)).noteOnSamplePos = [100] := by
  decide

/-- C1 (amended): a note-off removes the front (earliest appended) record
of the whole pending onset list, regardless of which pitch the record
belongs to; and when the Active Note Set becomes empty as a result, the
current sample position is recorded as the silence-start marker. -/
theorem c1_noteOff_removes_front (st : PluginState) (p : ℕ) (pos : ℤ)
    (h : st.noteOnSamplePos ≠ []) :
    (handleEvent pos st (.noteOff p)).noteOnSamplePos = st.noteOnSamplePos.tail ∧
    ((handleEvent pos st (.noteOff p)).currentChordNotes = [] →
      (handleEvent pos st (.noteOff p)).lastActiveNoteSample = pos) := by
  constructor
  · simp [handleEvent, h]
  · intro hempty
    simp only [handleEvent] at hempty ⊢
    simp [hempty]

/-- Witness for the amended C1 at the two-note state. -/
theorem c1_noteOff_removes_front_witness :
    (handleEvent 5000 c1State (.noteOff 64)).noteOnSamplePos =
      c1State.noteOnSamplePos.tail ∧
    ((handleEvent 5000 c1State (.noteOff 64)).currentChordNotes = [] →
      (handleEvent 5000 c1State (.noteOff 64)).lastActiveNoteSample = 5000) :=
  c1_noteOff_removes_front c1State 64 5000 (by decide)

/-- C2 counterexample: two note-on events for pitch 60 leave the pitch
twice in the Active Note Set. -/
theorem c2_counterexample :
    c2State.currentChordNotes = [60, 60] ∧ c2State.currentChordNotes.count 60 = 2 := by
  decide

/-- C2 (amended): a duplicate note-on for an already-held pitch appends the
pitch again, so the Active Note Set may contain a pitch more than once. -/
theorem c2_duplicate_noteOn_appends (st : PluginState) (p : ℕ) (v : ℤ) (pos : ℤ)
    (h : p ∈ st.currentChordNotes) :
    (handleEvent pos st (.noteOn p v)).currentChordNotes =
      st.currentChordNotes ++ [p] ∧
    2 ≤ (handleEvent pos st (.noteOn p v)).currentChordNotes.count p := by
  refine ⟨rfl, ?_⟩
  have hpos : 0 < st.currentChordNotes.count p := List.count_pos_iff.mpr h
  show 2 ≤ (st.currentChordNotes ++ [p]).count p
  rw [List.count_append]
  have h1 : [p].count p = 1 := by simp
  omega

/-- Witness for the amended C2 with pitch 60 already held. -/
theorem c2_duplicate_noteOn_appends_witness :
    (handleEvent 10 (handleEvent 0 initState (.noteOn 60 100)) (.noteOn 60 100)).currentChordNotes =
      (handleEvent 0 initState (.noteOn 60 100)).currentChordNotes ++ [60] ∧
    2 ≤ (handleEvent 10 (handleEvent 0 initState (.noteOn 60 100)) (.noteOn 60 100)).currentChordNotes.count 60 :=
  c2_duplicate_noteOn_appends (handleEvent 0 initState (.noteOn 60 100)) 60 100 10 (by decide)

/-- C10: a note-off for a pitch that is not held leaves the held-note list
unchanged but still removes the front pending onset record; concretely,
after note-on(60) and a stray note-off(64) the onset list is empty while
pitch 60 is still held, and a flush then uses the 1000 ms fallback. -/
theorem c10_noteOff_unmatched (st : PluginState) (p : ℕ) (pos : ℤ)
    (h : p ∉ st.currentChordNotes) :
    (handleEvent pos st (.noteOff p)).currentChordNotes = st.currentChordNotes ∧
    (handleEvent pos st (.noteOff p)).noteOnSamplePos = st.noteOnSamplePos.tail ∧
    c10State.currentChordNotes = [60] ∧ c10State.noteOnSamplePos = [] ∧
    (flushChord c10State).2 =
      [Dispatch.enqueue { notes := ["C4"], velocity := 100, durationMs := 1000 }] := by
  refine ⟨?_, ?_, by decide, by decide, by decide⟩
  · simp [handleEvent, List.erase_of_not_mem h]
  · rcases hn : st.noteOnSamplePos with _ | ⟨x, xs⟩ <;> simp [handleEvent, hn]

/-- Witness for C10 with pitch 64 not held. -/
theorem c10_noteOff_unmatched_witness :
    (handleEvent 10 (handleEvent 0 initState (.noteOn 60 100)) (.noteOff 64)).currentChordNotes =
      (handleEvent 0 initState (.noteOn 60 100)).currentChordNotes ∧
    (handleEvent 10 (handleEvent 0 initState (.noteOn 60 100)) (.noteOff 64)).noteOnSamplePos =
      (handleEvent 0 initState (.noteOn 60 100)).noteOnSamplePos.tail ∧
    c10State.currentChordNotes = [60] ∧ c10State.noteOnSamplePos = [] ∧
    (flushChord c10State).2 =
      [Dispatch.enqueue { notes := ["C4"], velocity := 100, durationMs := 1000 }] :=
  c10_noteOff_unmatched (handleEvent 0 initState (.noteOn 60 100)) 64 10 (by decide)

/-- C3 counterexample: processing the scenario's four events leaves the
Active Note Set empty (the note-offs at sample 5000 are handled before any
flush of that cycle), so the cycle at sample 5000 dispatches nothing and a
flush at sample 5000 produces no Chord Record at all - not the record
notes=["C4","E4"], velocity=100, durationMs=113 the claim states. -/
theorem c3_counterexample :
    processCycle initState e2eCtx1 [.noteOn 60 100] = ⟨e2eS1, [], []⟩ ∧
    processCycle e2eS1 e2eCtx2 [.noteOn 64 100] = ⟨e2eS2, [], []⟩ ∧
    processCycle e2eS2 e2eCtx3 [.noteOff 60, .noteOff 64] = ⟨e2eS3, [], []⟩ ∧
    e2eS3.currentChordNotes = [] ∧
    flushChord { e2eS3 with lastBarSamplePos := 5000 } =
      ({ e2eS3 with lastBarSamplePos := 5000 }, []) := by
  refine ⟨e2e_cycle1, e2e_cycle2, e2e_cycle3, by decide, ?_⟩
  simp [flushChord, e2eS3, initState]

/-- C3 (amended): with the flush at sample 5000 performed while the two
notes are still held (before the note-off events are consumed), the
scenario produces a Chord Record with notes ["C4","E4"], velocity 100 and
durationMs = clamp(5000*1000/44100, 50, 4000) = 113; after the note-offs
are processed the Active Note Set is empty and the flush is a no-op. -/
theorem c3_flush_before_noteOffs :
    processCycle initState e2eCtx1 [.noteOn 60 100] = ⟨e2eS1, [], []⟩ ∧
    processCycle e2eS1 e2eCtx2 [.noteOn 64 100] = ⟨e2eS2, [], []⟩ ∧
    flushChord { e2eS2 with lastBarSamplePos := 5000 } =
      ({ e2eS2 with lastBarSamplePos := 5000, currentChordNotes := [],
                    noteOnSamplePos := [] },
       [Dispatch.enqueue { notes := ["C4", "E4"], velocity := 100, durationMs := 113 }]) := by
  refine ⟨e2e_cycle1, e2e_cycle2, ?_⟩
  simp only [flushChord, buildTask, listMin, e2eS2, initState]
  norm_num
  decide

/-- C5: at every flush of a non-empty Active Note Set the record's
durationMs equals the spec's clamp((currentSample - earliestOnset) * 1000
/ sampleRate, 50, 4000) when onset records exist, equals 1000 when none
exist, and always lies in [50, 4000]. -/
theorem c5_durationMs (st : PluginState) (hsr : 0 < st.sampleRate) :
    (st.noteOnSamplePos ≠ [] →
      (buildTask st).durationMs =
        specClampDuration st.lastBarSamplePos (listMin st.noteOnSamplePos) st.sampleRate) ∧
    (st.noteOnSamplePos = [] → (buildTask st).durationMs = 1000) ∧
    50 ≤ (buildTask st).durationMs ∧ (buildTask st).durationMs ≤ 4000 ∧
    (st.currentChordNotes ≠ [] → st.sendBatchProgression = false →
      (flushChord st).2 = [Dispatch.enqueue (buildTask st)]) := by
  have hdur : (buildTask st).durationMs =
      if st.noteOnSamplePos = [] then 1000
      else ⌊min 4000 (max 50
        (((max 0 (st.lastBarSamplePos - listMin st.noteOnSamplePos) : ℤ) : ℚ) * 1000 /
          st.sampleRate))⌋ := rfl
  refine ⟨?_, ?_, ?_, ?_, ?_⟩
  · intro hne
    rw [hdur, if_neg hne]
    unfold specClampDuration
    rcases le_or_lt 0 (st.lastBarSamplePos - listMin st.noteOnSamplePos) with hd | hd
    · rw [max_eq_right hd]
    · have hl : ((max 0 (st.lastBarSamplePos - listMin st.noteOnSamplePos) : ℤ) : ℚ) = 0 := by
        rw [max_eq_left hd.le]
        simp
      have hr : ((st.lastBarSamplePos - listMin st.noteOnSamplePos : ℤ) : ℚ) * 1000 /
          st.sampleRate < 0 := by
        apply div_neg_of_neg_of_pos _ hsr
        have : ((st.lastBarSamplePos - listMin st.noteOnSamplePos : ℤ) : ℚ) < 0 := by
          exact_mod_cast hd
        nlinarith
      rw [hl]
      rw [max_eq_left (by norm_num : (0 : ℚ) * 1000 / st.sampleRate ≤ 50)]
      rw [max_eq_left (le_trans hr.le (by norm_num : (0 : ℚ) ≤ 50))]
  · intro he
    rw [hdur, if_pos he]
  · rw [hdur]
    split
    · norm_num
    · apply Int.le_floor.mpr
      push_cast
      exact le_min (by norm_num) (le_max_left _ _)
  · rw [hdur]
    split
    · norm_num
    · have h1 := Int.floor_mono (min_le_left (4000 : ℚ)
        (max 50 (((max 0 (st.lastBarSamplePos - listMin st.noteOnSamplePos) : ℤ) : ℚ) * 1000 /
          st.sampleRate)))
      simpa using h1
  · intro hne hflag
    simp [flushChord, hne, hflag]

/-- Witness for C5 at the two-note scenario state with the bar position at
sample 5000. -/
theorem c5_durationMs_witness :
    (({ e2eS2 with lastBarSamplePos := 5000 } : PluginState).noteOnSamplePos ≠ [] →
      (buildTask { e2eS2 with lastBarSamplePos := 5000 }).durationMs =
        specClampDuration 5000 (listMin ({ e2eS2 with lastBarSamplePos := 5000 } : PluginState).noteOnSamplePos) 44100) ∧
    50 ≤ (buildTask { e2eS2 with lastBarSamplePos := 5000 }).durationMs ∧
    (buildTask { e2eS2 with lastBarSamplePos := 5000 }).durationMs ≤ 4000 := by
  have h := c5_durationMs { e2eS2 with lastBarSamplePos := 5000 } (by norm_num [e2eS2, initState])
  exact ⟨h.1, h.2.2.1, h.2.2.2.1⟩

/-- C6: with batching enabled and a non-empty note set, a flush whose
buffer holds fewer than 3 records dispatches nothing and appends to the
buffer, while a flush whose buffer holds exactly 3 records (the 4th
append) dispatches exactly one progression and empties the buffer. -/
theorem c6_batching (st : PluginState) (hb : st.sendBatchProgression = true)
    (hn : st.currentChordNotes ≠ []) :
    (st.progressionBuffer.length + 1 < 4 →
      (flushChord st).2 = [] ∧
      (flushChord st).1.progressionBuffer = st.progressionBuffer ++ [buildTask st]) ∧
    (st.progressionBuffer.length = 3 →
      (flushChord st).2 =
        [Dispatch.progression (st.progressionBuffer ++ [buildTask st])
          (i64trunc st.tempoBPM) st.lastVelocity] ∧
      (flushChord st).1.progressionBuffer = []) := by
  constructor
  · intro hlt
    have hc : ¬ 3 ≤ st.progressionBuffer.length := by omega
    simp [flushChord, hn, hb, hc]
  · intro heq
    have hc : 3 ≤ st.progressionBuffer.length := by omega
    simp [flushChord, hn, hb, hc]

/-- Witness for C6: the 4th append (buffer already holding 3 records)
dispatches exactly one progression and clears the buffer; a buffer holding
none dispatches nothing. -/
theorem c6_batching_witness :
    ((({ e2eS1 with sendBatchProgression := true } : PluginState).progressionBuffer.length + 1 < 4 →
      (flushChord { e2eS1 with sendBatchProgression := true }).2 = [] ∧
      (flushChord { e2eS1 with sendBatchProgression := true }).1.progressionBuffer =
        ({ e2eS1 with sendBatchProgression := true } : PluginState).progressionBuffer ++
          [buildTask { e2eS1 with sendBatchProgression := true }]) ∧
    (({ e2eS1 with sendBatchProgression := true } : PluginState).progressionBuffer.length = 3 →
      (flushChord { e2eS1 with sendBatchProgression := true }).2 =
        [Dispatch.progression
          (({ e2eS1 with sendBatchProgression := true } : PluginState).progressionBuffer ++
            [buildTask { e2eS1 with sendBatchProgression := true }])
          (i64trunc ({ e2eS1 with sendBatchProgression := true } : PluginState).tempoBPM)
          ({ e2eS1 with sendBatchProgression := true } : PluginState).lastVelocity] ∧
      (flushChord { e2eS1 with sendBatchProgression := true }).1.progressionBuffer = [])) :=
  c6_batching { e2eS1 with sendBatchProgression := true } rfl (by decide)

/-- C8: a send succeeds exactly when the HTTP response code is 2xx; an
initialization or transport failure yields a failed send whose reason is
stored in lastError (the functions are total, so no exception reaches the
caller); the status of a completed request is recorded in lastStatus. -/
theorem c8_send_result (st : ClientState) (task : ChordTask)
    (chords : List ChordTask) (bpm vel ch : ℤ) (o : CurlOutcome) :
    ((postChord st task o).1 = true ↔
      ∃ c, o = .response c ∧ 200 ≤ c ∧ c < 300) ∧
    ((postProgression st chords bpm vel ch o).1 = true ↔
      ∃ c, o = .response c ∧ 200 ≤ c ∧ c < 300) ∧
    (o = .initFail →
      (postChord st task o).1 = false ∧
      (postChord st task o).2.lastError = "curl init failed" ∧
      (postProgression st chords bpm vel ch o).1 = false ∧
      (postProgression st chords bpm vel ch o).2.lastError = "curl init failed") ∧
    (∀ e, o = .transportFail e →
      (postChord st task o).1 = false ∧ (postChord st task o).2.lastError = e ∧
      (postProgression st chords bpm vel ch o).1 = false ∧
      (postProgression st chords bpm vel ch o).2.lastError = e) ∧
    (∀ c, o = .response c →
      (postChord st task o).2.lastStatus = "HTTP " ++ toString c ∧
      (postProgression st chords bpm vel ch o).2.lastStatus = "HTTP " ++ toString c) := by
  cases o with
  | initFail => simp [postChord, postProgression]
  | transportFail e => simp [postChord, postProgression]
  | response c =>
      refine ⟨?_, ?_, by simp, by simp, by simp [postChord, postProgression]⟩ <;>
        simp [postChord, postProgression, decide_eq_true_iff]

/-- Witness for C8: a 204 response is a success, a 404 is not, and a
transport failure stores its reason. -/
theorem c8_send_result_witness :
    (postChord {} { notes := [], velocity := 96, durationMs := 2000 } (.response 204)).1 = true ∧
    (postChord {} { notes := [], velocity := 96, durationMs := 2000 } (.response 404)).1 ≠ true ∧
    (postChord {} { notes := [], velocity := 96, durationMs := 2000 }
      (.transportFail "Timeout was reached")).2.lastError = "Timeout was reached" := by
  have h204 := c8_send_result {} { notes := [], velocity := 96, durationMs := 2000 }
    [] 120 100 0 (.response 204)
  have h404 := c8_send_result {} { notes := [], velocity := 96, durationMs := 2000 }
    [] 120 100 0 (.response 404)
  have htr := c8_send_result {} { notes := [], velocity := 96, durationMs := 2000 }
    [] 120 100 0 (.transportFail "Timeout was reached")
  refine ⟨h204.1.mpr ⟨204, rfl, by norm_num, by norm_num⟩, ?_, (htr.2.2.2.1 _ rfl).2.1⟩
  intro hc
  rcases h404.1.mp hc with ⟨c, hcq, h1, h2⟩
  cases hcq
  omega

theorem flushDriver_policy (st2 : PluginState) (cur : ℤ)
    (hspb : 0 < samplesPerBar st2) :
    (flushDriver st2 cur).flushes.length ≤ 1 ∧
    (FlushKind.silence ∈ (flushDriver st2 cur).flushes →
      silenceCond st2 cur ∧ (flushDriver st2 cur).state.lastActiveNoteSample = 0) ∧
    ¬ (FlushKind.silence ∈ (flushDriver st2 cur).flushes ∧
       FlushKind.bar ∈ (flushDriver st2 cur).flushes) := by
  by_cases hs : silenceCond st2 cur
  · have hlb : (silenceStep st2 cur).state.lastBarSamplePos = cur := by
      show (flushChord { st2 with lastBarSamplePos := cur }).1.lastBarSamplePos = cur
      rw [flushChord_lastBarSamplePos]
    have hnb : ¬ isBarBoundary (silenceStep st2 cur).state.lastBarSamplePos cur
        (samplesPerBar st2) := by
      rw [hlb]
      unfold isBarBoundary
      simp only [sub_self, Int.cast_zero, not_le]
      exact hspb
    have heq : flushDriver st2 cur = silenceStep st2 cur := by
      unfold flushDriver
      rw [if_pos hs, if_neg hnb]
    rw [heq]
    refine ⟨by simp [silenceStep], fun _ => ⟨hs, rfl⟩, ?_⟩
    rintro ⟨-, hbar⟩
    simp [silenceStep] at hbar
  · by_cases hbar : isBarBoundary st2.lastBarSamplePos cur (samplesPerBar st2)
    · have heq : flushDriver st2 cur = barStep st2 cur := by
        unfold flushDriver
        rw [if_neg hs, if_pos hbar]
      rw [heq]
      refine ⟨by simp [barStep], ?_, ?_⟩
      · intro hmem
        simp [barStep] at hmem
      · rintro ⟨hmem, -⟩
        simp [barStep] at hmem
    · have heq : flushDriver st2 cur = ⟨st2, [], []⟩ := by
        unfold flushDriver
        rw [if_neg hs, if_neg hbar]
      rw [heq]
      simp

/-- C4: with positive clock parameters, each processing cycle performs at
most one flush; the silence flush runs only when the post-event note set
is empty, the marker is set (> 0) and the elapsed samples reach the
threshold, and it leaves the marker cleared; a silence flush and a
bar-boundary flush never both run in one cycle. -/
theorem c4_flush_policy (st : PluginState) (ctx : TransportCtx) (events : List MidiEvent)
    (hsr : 0 < (midState st ctx events).sampleRate)
    (ht : 0 < (midState st ctx events).tempoBPM)
    (hn : 0 < (midState st ctx events).timeSigNum)
    (hd : 0 < (midState st ctx events).timeSigDen) :
    (processCycle st ctx events).flushes.length ≤ 1 ∧
    (FlushKind.silence ∈ (processCycle st ctx events).flushes →
      (midState st ctx events).currentChordNotes = [] ∧
      0 < (midState st ctx events).lastActiveNoteSample ∧
      silenceThresholdSamples (midState st ctx events) ≤
        eventPos (applyTransport st ctx) ctx -
          (midState st ctx events).lastActiveNoteSample ∧
      (processCycle st ctx events).state.lastActiveNoteSample = 0) ∧
    ¬ (FlushKind.silence ∈ (processCycle st ctx events).flushes ∧
       FlushKind.bar ∈ (processCycle st ctx events).flushes) := by
  have hspb : 0 < samplesPerBar (midState st ctx events) := by
    unfold samplesPerBar
    have h1 : 0 < (60 : ℚ) / (midState st ctx events).tempoBPM := div_pos (by norm_num) ht
    have h2 : 0 < ((midState st ctx events).timeSigNum : ℚ) := by exact_mod_cast hn
    have h3 : 0 < ((midState st ctx events).timeSigDen : ℚ) := by exact_mod_cast hd
    have h4 : 0 < (4 : ℚ) / ((midState st ctx events).timeSigDen : ℚ) :=
      div_pos (by norm_num) h3
    exact mul_pos (mul_pos h1 (mul_pos h2 h4)) hsr
  cases hm : ctx.projectTimeMusic with
  | none =>
      have heq : processCycle st ctx events = ⟨midState st ctx events, [], []⟩ := by
        unfold processCycle
        rw [hm]
      rw [heq]
      simp
  | some q =>
      have heq : processCycle st ctx events =
          flushDriver (midState st ctx events) (eventPos (applyTransport st ctx) ctx) := by
        unfold processCycle
        rw [hm]
      rw [heq]
      have h := flushDriver_policy (midState st ctx events)
        (eventPos (applyTransport st ctx) ctx) hspb
      refine ⟨h.1, fun hmem => ?_, h.2.2⟩
      rcases h.2.1 hmem with ⟨⟨hc1, hc2, hc3⟩, hc4⟩
      exact ⟨hc1, hc2, hc3, hc4⟩

/-- Witness for C4 at the default transport with no events. -/
theorem c4_flush_policy_witness :
    (processCycle initState e2eCtx1 []).flushes.length ≤ 1 ∧
    (FlushKind.silence ∈ (processCycle initState e2eCtx1 []).flushes →
      (midState initState e2eCtx1 []).currentChordNotes = [] ∧
      0 < (midState initState e2eCtx1 []).lastActiveNoteSample ∧
      silenceThresholdSamples (midState initState e2eCtx1 []) ≤
        eventPos (applyTransport initState e2eCtx1) e2eCtx1 -
          (midState initState e2eCtx1 []).lastActiveNoteSample ∧
      (processCycle initState e2eCtx1 []).state.lastActiveNoteSample = 0) ∧
    ¬ (FlushKind.silence ∈ (processCycle initState e2eCtx1 []).flushes ∧
       FlushKind.bar ∈ (processCycle initState e2eCtx1 []).flushes) :=
  c4_flush_policy initState e2eCtx1 []
    (by norm_num [midState, applyTransport, e2eCtx1, initState])
    (by norm_num [midState, applyTransport, e2eCtx1, initState])
    (by norm_num [midState, applyTransport, e2eCtx1, initState])
    (by norm_num [midState, applyTransport, e2eCtx1, initState])

end MusicTheory
